import Mathlib

/-!
# Verification of the pytouchlinesl cache-and-mutation core

A shallow embedding of the pytouchlinesl client library (Roth TouchlineSL
heating controller API client) and proofs about its core behaviours:

* the pydantic data model (`client/models/models.py`), restricted to the
  fields the core logic reads;
* the outbound-payload construction of `RothAPI.set_zone_temperature` and
  `RothAPI.set_zone_schedule` (`client/client.py`);
* the `Module` snapshot cache, derived-view caches, lookups and
  invalidation (`module.py`), modelled as explicit state passing with the
  clock an explicit parameter and a counter of remote fetches;
* the `Zone` facade and its mutations (`zone.py`).

Modelling conventions: Python ints are `Int` (clock values, which are
non-negative milliseconds-since-epoch, are `Nat`); Python floats are exact
rationals `ℚ`; `await`ed remote fetches are modelled by passing the value
the remote would return (`remote : ModuleModel`) as a parameter; a Python
`AssertionError` / `AttributeError` outcome is an explicit error value.
-/

/-- The `mode` literal of a zone's mode record
(`Literal["constantTemp", "globalSchedule", "localSchedule", "timeLimit"]`). -/
inductive ZoneMode where
  | constantTemp
  | globalSchedule
  | localSchedule
  | timeLimit
deriving DecidableEq, Repr

/-- The `zoneState` literal of a zone's attribute record
(`Literal["zoneOff", "noAlarm", "zoneUnregistered", "sensorDamaged", "noCommunication"]`). -/
inductive ZoneState where
  | zoneOff
  | noAlarm
  | zoneUnregistered
  | sensorDamaged
  | noCommunication
deriving DecidableEq, Repr

/-- `ScheduleIntervalModel`: one time interval of a schedule period. -/
structure ScheduleIntervalModel where
  start : Int
  stop : Int
  temp : Int
deriving DecidableEq, Repr

/-- `GlobalScheduleModel`: a global schedule record. -/
structure GlobalScheduleModel where
  id : Int
  parent_id : Int
  index : Int
  name : String
  p0_days : List String
  p0_setback_temp : Int
  p0_intervals : List ScheduleIntervalModel
  p1_days : List String
  p1_setback_temp : Int
  p1_intervals : List ScheduleIntervalModel
deriving DecidableEq, Repr

/-- `ZoneAttributesModel`, restricted to the fields the core reads:
`id` and `zone_state` (alias `zoneState`). -/
structure ZoneAttributesModel where
  id : Int
  zone_state : ZoneState
deriving DecidableEq, Repr

/-- `ZoneDescriptionModel`, restricted to the fields the core reads:
`id` and `name`. -/
structure ZoneDescriptionModel where
  id : Int
  name : String
deriving DecidableEq, Repr

/-- `ZoneModeModel`: a zone's mode record. -/
structure ZoneModeModel where
  id : Int
  parent_id : Int
  mode : ZoneMode
  const_temp_time : Int
  set_temperature : Int
  schedule_index : Int
deriving DecidableEq, Repr

/-- `ZoneModel`, restricted to the sub-records the core reads:
`zone`, `description` and `mode`. -/
structure ZoneModel where
  zone : ZoneAttributesModel
  description : ZoneDescriptionModel
  mode : ZoneModeModel
deriving DecidableEq, Repr

/-- `GlobalSchedulesModel`, restricted to its `elements` list. -/
structure GlobalSchedulesModel where
  elements : List GlobalScheduleModel
deriving DecidableEq, Repr

/-- `ZonesModel`, restricted to `elements` and `global_schedules`
(alias `globalSchedules`). -/
structure ZonesModel where
  elements : List ZoneModel
  global_schedules : GlobalSchedulesModel
deriving DecidableEq, Repr

/-- `ModuleModel`, restricted to its `zones` sub-record: one full fetch of
a module's state (the spec's Snapshot). -/
structure ModuleModel where
  zones : ZonesModel
deriving DecidableEq, Repr

/-! ## `RothAPI.set_zone_temperature` (client/client.py:108-123) -/

/-- Python's `int()` applied to an exact rational value: truncation toward
zero. Since `Rat` is stored in lowest terms, truncated integer division of
the numerator by the denominator is exactly `int(q)`. -/
def pyInt (q : ℚ) : Int := q.num.tdiv q.den

/-- The `mode` object of the outbound payload of
`RothAPI.set_zone_temperature`. -/
structure SetTempMode where
  id : Int
  parentId : Int
  mode : ZoneMode
  constTempTime : Int
  setTemperature : Int
  scheduleIndex : Int
deriving DecidableEq, Repr

/-- The outbound payload of `RothAPI.set_zone_temperature`. -/
structure SetTempPayload where
  mode : SetTempMode
deriving DecidableEq, Repr

/-- `RothAPI.set_zone_temperature` (client/client.py:108-123): builds the
constant-temperature payload; the temperature is encoded as
`int(temperature * 10)`. The HTTP POST itself is the external boundary;
its payload is the function's result. -/
def set_zone_temperature (mode_id zone_id : Int) (temperature : ℚ) : SetTempPayload :=
  { mode :=
      { id := mode_id
        parentId := zone_id
        mode := ZoneMode.constantTemp
        constTempTime := 0
        setTemperature := pyInt (temperature * 10)
        scheduleIndex := 0 } }

/-! ## `RothAPI.set_zone_schedule` (client/client.py:125-179) -/

/-- One entry of the `setInZones` list of the schedule-reassignment
payload: `{"zoneId": z.zone.id, "modeId": z.mode.id}`. -/
structure SetInZoneEntry where
  zoneId : Int
  modeId : Int
deriving DecidableEq, Repr

/-- The `schedule` object of the schedule-reassignment payload. -/
structure PayloadSchedule where
  id : Int
  index : Int
  p0Days : List String
  p0SetbackTemp : Int
  p0Intervals : List ScheduleIntervalModel
  p1Days : List String
  p1SetbackTemp : Int
  p1Intervals : List ScheduleIntervalModel
deriving DecidableEq, Repr

/-- The outbound payload of `RothAPI.set_zone_schedule`. -/
structure SetZoneSchedulePayload where
  scheduleName : String
  setInZones : List SetInZoneEntry
  schedule : PayloadSchedule
deriving DecidableEq, Repr

/-- A Python exception escaping an embedded operation. -/
inductive PyError where
  | assertionError
  | attributeError
deriving DecidableEq, Repr

/-- `RothAPI.set_zone_schedule` (client/client.py:125-179). The fresh
module fetch (`await self.module(...)`) is the `module` parameter. A
schedule lookup miss makes `assert isinstance(schedule, GlobalScheduleModel)`
fail, raising `AssertionError`; otherwise the outbound payload is built:
zones kept on the schedule are those already in `globalSchedule` mode with
the schedule's index, plus the zone being reassigned, and intervals whose
`start` is the 6100 sentinel are dropped from both periods. -/
def set_zone_schedule (module : ModuleModel) (zone_id schedule_id : Int) :
    Except PyError SetZoneSchedulePayload :=
  let schedules := module.zones.global_schedules.elements
  match schedules.find? (fun s => s.id == schedule_id) with
  | none => Except.error PyError.assertionError
  | some schedule =>
    let zones_on_schedule := module.zones.elements.filter (fun z =>
      (z.mode.mode == ZoneMode.globalSchedule && z.mode.schedule_index == schedule.index)
        || z.zone.id == zone_id)
    let p0_intervals := schedule.p0_intervals.filter (fun i => i.start != 6100)
    let p1_intervals := schedule.p1_intervals.filter (fun i => i.start != 6100)
    Except.ok
      { scheduleName := schedule.name
        setInZones := zones_on_schedule.map (fun z => ⟨z.zone.id, z.mode.id⟩)
        schedule :=
          { id := schedule.id
            index := schedule.index
            p0Days := schedule.p0_days
            p0SetbackTemp := schedule.p0_setback_temp
            p0Intervals := p0_intervals
            p1Days := schedule.p1_days
            p1SetbackTemp := schedule.p1_setback_temp
            p1Intervals := p1_intervals } }

/-! ## The `Zone` facade (zone.py) -/

/-- `Zone` (zone.py:41-63): wraps a raw zone record and the schedule it was
constructed with. `Module.zones` always constructs it with the result of
`Module.schedule_by_idx`, so `_schedule` here is an optional global
schedule. The `module`/`client` back-references are the explicit state and
remote parameters of the operations below. -/
structure Zone where
  _raw_data : ZoneModel
  _schedule : Option GlobalScheduleModel
deriving DecidableEq, Repr

/-- `Zone.name` (zone.py:65-68). -/
def Zone.name (z : Zone) : String := z._raw_data.description.name

/-- `Zone.id` (zone.py:70-73). -/
def Zone.id (z : Zone) : Int := z._raw_data.zone.id

/-- `Zone.mode` (zone.py:97-100). -/
def Zone.mode (z : Zone) : ZoneMode := z._raw_data.mode.mode

/-- `Zone.enabled` (zone.py:102-105): `self._raw_data.zone.zone_state != "zoneOff"`. -/
def Zone.enabled (z : Zone) : Bool := z._raw_data.zone.zone_state != ZoneState.zoneOff

/-- `Zone.schedule` (zone.py:107-113): `None` when the mode is
`constantTemp`, otherwise the schedule the view was constructed with. -/
def Zone.schedule (z : Zone) : Option GlobalScheduleModel :=
  if z.mode == ZoneMode.constantTemp then none else z._schedule

/-! ## The `Module` snapshot cache (module.py)

The mutable attributes of a `Module` instance form an explicit state
record. Each operation takes the current wall-clock time `now` (the value
of `round(time.time() * 1000)`, in milliseconds) and the module data
`remote` that `self._client.module(self.id)` would return, and yields the
operation's result, the successor state, and the number of remote fetches
performed. -/

/-- The mutable state of a `Module` instance (module.py:37-68):
`_raw_data` (unset before the first fetch, i.e. `none`), `_last_fetched`
(0 initially), `_cache_validity` (seconds per the docstring, default 30),
and the derived-view caches `_zones` and `_schedules`. -/
structure ModuleState where
  _raw_data : Option ModuleModel
  _last_fetched : Nat
  _cache_validity : Nat
  _zones : List Zone
  _schedules : List GlobalScheduleModel
deriving DecidableEq, Repr

/-- `Module.__init__` (module.py:37-68): no raw data, `_last_fetched = 0`,
empty view caches. -/
def Module.init (cache_validity : Nat) : ModuleState :=
  { _raw_data := none
    _last_fetched := 0
    _cache_validity := cache_validity
    _zones := []
    _schedules := [] }

/-- `Module._data` (module.py:70-84): refetch when `refresh` is set or
`round(time.time() * 1000) - self._last_fetched > self._cache_validity`
(note: elapsed milliseconds compared against the validity value), storing
the new data and timestamp; otherwise serve `self._raw_data`, which raises
`AttributeError` if it was never set. -/
def Module._data (st : ModuleState) (now : Nat) (remote : ModuleModel) (refresh : Bool) :
    Except PyError (ModuleModel × ModuleState × Nat) :=
  if refresh || (now - st._last_fetched > st._cache_validity) then
    Except.ok (remote, { st with _raw_data := some remote, _last_fetched := now }, 1)
  else
    match st._raw_data with
    | some d => Except.ok (d, st, 0)
    | none => Except.error PyError.attributeError

/-- `Module.invalidate_cache` (module.py:86-90): reset the timestamp and
drop both derived-view caches. -/
def Module.invalidate_cache (st : ModuleState) : ModuleState :=
  { st with _last_fetched := 0, _zones := [], _schedules := [] }

/-- `Module.schedules` (module.py:133-143): rebuild the `_schedules` cache
from `_data` when it is empty (`not self._schedules`) or `refresh` is set,
else serve it unchanged. -/
def Module.schedules (st : ModuleState) (now : Nat) (remote : ModuleModel) (refresh : Bool) :
    Except PyError (List GlobalScheduleModel × ModuleState × Nat) :=
  if st._schedules.isEmpty || refresh then
    match Module._data st now remote refresh with
    | Except.error e => Except.error e
    | Except.ok (d, st1, n) =>
      Except.ok (d.zones.global_schedules.elements,
        { st1 with _schedules := d.zones.global_schedules.elements }, n)
  else
    Except.ok (st._schedules, st, 0)

/-- `Module.schedule` (module.py:145-155): first schedule with the given
id, or `None`. -/
def Module.schedule (st : ModuleState) (now : Nat) (remote : ModuleModel)
    (schedule_id : Int) (refresh : Bool) :
    Except PyError (Option GlobalScheduleModel × ModuleState × Nat) :=
  match Module.schedules st now remote refresh with
  | Except.error e => Except.error e
  | Except.ok (ss, st1, n) => Except.ok (ss.find? (fun s => s.id == schedule_id), st1, n)

/-- `Module.schedule_by_idx` (module.py:157-167): first schedule with the
given position index, or `None`. -/
def Module.schedule_by_idx (st : ModuleState) (now : Nat) (remote : ModuleModel)
    (schedule_idx : Int) (refresh : Bool) :
    Except PyError (Option GlobalScheduleModel × ModuleState × Nat) :=
  match Module.schedules st now remote refresh with
  | Except.error e => Except.error e
  | Except.ok (ss, st1, n) => Except.ok (ss.find? (fun s => s.index == schedule_idx), st1, n)

/-- `Module.schedule_by_name` (module.py:169-179): first schedule with the
given name, or `None`. -/
def Module.schedule_by_name (st : ModuleState) (now : Nat) (remote : ModuleModel)
    (schedule_name : String) (refresh : Bool) :
    Except PyError (Option GlobalScheduleModel × ModuleState × Nat) :=
  match Module.schedules st now remote refresh with
  | Except.error e => Except.error e
  | Except.ok (ss, st1, n) => Except.ok (ss.find? (fun s => s.name == schedule_name), st1, n)

/-- The `for z in data.zones.elements` loop of `Module.zones`
(module.py:102-105): each iteration resolves the zone's schedule with
`schedule_by_idx` (a non-forced read) and appends a `Zone` view to
`self._zones`. -/
def Module.zonesLoop (now : Nat) (remote : ModuleModel) :
    ModuleState → List ZoneModel → Except PyError (ModuleState × Nat)
  | st, [] => Except.ok (st, 0)
  | st, z :: rest =>
    match Module.schedule_by_idx st now remote z.mode.schedule_index false with
    | Except.error e => Except.error e
    | Except.ok (sched, st1, n) =>
      match Module.zonesLoop now remote { st1 with _zones := st1._zones ++ [⟨z, sched⟩] } rest with
      | Except.error e => Except.error e
      | Except.ok (st2, m) => Except.ok (st2, n + m)

/-- `Module.zones` (module.py:92-110): rebuild the `_zones` views from
`_data` when the cache is empty (`not self._zones`) or `refresh` is set;
then return all views, or only the enabled ones when `include_off` is
false. -/
def Module.zones (st : ModuleState) (now : Nat) (remote : ModuleModel)
    (include_off refresh : Bool) : Except PyError (List Zone × ModuleState × Nat) :=
  if st._zones.isEmpty || refresh then
    match Module._data st now remote refresh with
    | Except.error e => Except.error e
    | Except.ok (d, st1, n) =>
      match Module.zonesLoop now remote st1 d.zones.elements with
      | Except.error e => Except.error e
      | Except.ok (st2, m) =>
        Except.ok ((if include_off then st2._zones else st2._zones.filter Zone.enabled),
          st2, n + m)
  else
    Except.ok ((if include_off then st._zones else st._zones.filter Zone.enabled), st, 0)

/-- `Module.zone` (module.py:112-120): first zone (searching all zones,
disabled included) with the given id, or `None`. -/
def Module.zone (st : ModuleState) (now : Nat) (remote : ModuleModel)
    (zone_id : Int) (refresh : Bool) :
    Except PyError (Option Zone × ModuleState × Nat) :=
  match Module.zones st now remote true refresh with
  | Except.error e => Except.error e
  | Except.ok (zs, st1, n) => Except.ok (zs.find? (fun z => z.id == zone_id), st1, n)

/-- `Module.zone_by_name` (module.py:122-131): first zone (searching all
zones, disabled included) with the given name, or `None`. -/
def Module.zone_by_name (st : ModuleState) (now : Nat) (remote : ModuleModel)
    (zone_name : String) (refresh : Bool) :
    Except PyError (Option Zone × ModuleState × Nat) :=
  match Module.zones st now remote true refresh with
  | Except.error e => Except.error e
  | Except.ok (zs, st1, n) => Except.ok (zs.find? (fun z => z.name == zone_name), st1, n)

/-- `Zone.set_temperature` (zone.py:125-133): submit the
constant-temperature payload via the client, then invalidate the owning
module's cache. -/
def Zone.set_temperature (z : Zone) (st : ModuleState) (temperature : ℚ) :
    SetTempPayload × ModuleState :=
  (set_zone_temperature z._raw_data.mode.id z.id temperature, Module.invalidate_cache st)

/-- `Zone.set_schedule` (zone.py:135-138): submit the schedule-reassignment
payload via the client (which itself performs a fresh module fetch,
`remote`), then invalidate the owning module's cache. If the client call
raises, the exception propagates and the cache is not invalidated. -/
def Zone.set_schedule (z : Zone) (st : ModuleState) (remote : ModuleModel)
    (schedule_id : Int) : Except PyError (SetZoneSchedulePayload × ModuleState) :=
  match set_zone_schedule remote z.id schedule_id with
  | Except.error e => Except.error e
  | Except.ok p => Except.ok (p, Module.invalidate_cache st)

/-! ## Derived notions used in theorem statements -/

/-- The `Zone` view that the `Module.zones` rebuild loop constructs for a
raw zone record, once `_schedules` holds the snapshot's global schedules:
the record paired with the first global schedule whose position index
equals the record's `schedule_index` (`byIndex` resolution). Proved below
to coincide with what the loop builds. -/
def zoneView (remote : ModuleModel) (z : ZoneModel) : Zone :=
  ⟨z, remote.zones.global_schedules.elements.find? (fun s => s.index == z.mode.schedule_index)⟩

/-- `r` is the result of a first-match lookup with predicate `p` over `l`:
either no element matches and `r` is the not-found value, or `r` is the
first-encountered match in `l`'s order. -/
def FirstMatch {α : Type} (p : α → Bool) (l : List α) (r : Option α) : Prop :=
  (r = none ∧ ∀ x ∈ l, ¬ p x) ∨
    (∃ a l1 l2, r = some a ∧ p a ∧ l = l1 ++ a :: l2 ∧ ∀ x ∈ l1, ¬ p x)

/-! ## Concrete fixtures -/

/-- A morning heating interval. -/
def ivMorning : ScheduleIntervalModel := ⟨240, 480, 210⟩

/-- An evening heating interval. -/
def ivEvening : ScheduleIntervalModel := ⟨1020, 1320, 220⟩

/-- An empty interval: the 6100 sentinel. -/
def ivEmpty : ScheduleIntervalModel := ⟨6100, 6100, 0⟩

/-- A global schedule with sentinel entries in both periods. -/
def schedLivingSpaces : GlobalScheduleModel :=
  { id := 2948
    parent_id := 1
    index := 0
    name := "Living Spaces"
    p0_days := ["monday", "tuesday"]
    p0_setback_temp := 180
    p0_intervals := [ivMorning, ivEmpty]
    p1_days := ["saturday"]
    p1_setback_temp := 160
    p1_intervals := [ivEvening, ivEmpty] }

/-- A second global schedule, at position index 1. -/
def schedBedrooms : GlobalScheduleModel :=
  { id := 2967
    parent_id := 1
    index := 1
    name := "Bedrooms"
    p0_days := ["sunday"]
    p0_setback_temp := 170
    p0_intervals := [ivEvening]
    p1_days := []
    p1_setback_temp := 150
    p1_intervals := [ivEmpty] }

/-- An enabled zone in `globalSchedule` mode on schedule index 0. -/
def zKitchen : ZoneModel :=
  { zone := ⟨10, ZoneState.noAlarm⟩
    description := ⟨110, "Kitchen"⟩
    mode := ⟨100, 10, ZoneMode.globalSchedule, 0, 200, 0⟩ }

/-- An enabled zone in `constantTemp` mode. -/
def zLounge : ZoneModel :=
  { zone := ⟨11, ZoneState.noAlarm⟩
    description := ⟨111, "Lounge"⟩
    mode := ⟨101, 11, ZoneMode.constantTemp, 0, 215, 0⟩ }

/-- A disabled (`zoneOff`) zone in `localSchedule` mode whose
`schedule_index` happens to equal the position index of `schedBedrooms`. -/
def zAttic : ZoneModel :=
  { zone := ⟨12, ZoneState.zoneOff⟩
    description := ⟨112, "Attic"⟩
    mode := ⟨102, 12, ZoneMode.localSchedule, 0, 180, 1⟩ }

/-- A sample snapshot: three zones, two global schedules. -/
def sampleModule : ModuleModel :=
  { zones :=
      { elements := [zKitchen, zLounge, zAttic]
        global_schedules := { elements := [schedLivingSpaces, schedBedrooms] } } }

/-- A snapshot with no zones and no schedules. -/
def emptyModule : ModuleModel :=
  { zones := { elements := [], global_schedules := { elements := [] } } }

/-- The payload `set_zone_schedule sampleModule 11 2948` produces. -/
def samplePayload : SetZoneSchedulePayload :=
  { scheduleName := "Living Spaces"
    setInZones := [⟨10, 100⟩, ⟨11, 101⟩]
    schedule :=
      { id := 2948
        index := 0
        p0Days := ["monday", "tuesday"]
        p0SetbackTemp := 180
        p0Intervals := [ivMorning]
        p1Days := ["saturday"]
        p1SetbackTemp := 160
        p1Intervals := [ivEvening] } }

/-- The `Zone` view of `zKitchen` resolved against `sampleModule`. -/
def zvKitchen : Zone := ⟨zKitchen, some schedLivingSpaces⟩

/-- The `Zone` view of `zLounge` resolved against `sampleModule`. -/
def zvLounge : Zone := ⟨zLounge, some schedLivingSpaces⟩

/-- The `Zone` view of `zAttic` resolved against `sampleModule`. -/
def zvAttic : Zone := ⟨zAttic, some schedBedrooms⟩

/-- A module state whose derived-view caches are already populated. -/
def stCached : ModuleState :=
  { _raw_data := none
    _last_fetched := 0
    _cache_validity := 30
    _zones := [zvKitchen, zvLounge, zvAttic]
    _schedules := [schedLivingSpaces, schedBedrooms] }

/-- A snapshot whose only zone is in `localSchedule` mode, with a
`schedule_index` matching the position index of `schedBedrooms`. -/
def localModeModule : ModuleModel :=
  { zones := { elements := [zAttic], global_schedules := { elements := [schedBedrooms] } } }

/-! ## Helper lemmas -/

/-- `List.find?` is a first-match lookup: it returns the not-found value
exactly on a miss, and the first-encountered match otherwise. -/
theorem firstMatch_find {α : Type} (p : α → Bool) (l : List α) :
    FirstMatch p l (l.find? p) := by
  induction l with
  | nil => exact Or.inl ⟨rfl, by simp⟩
  | cons x l ih =>
    by_cases h : p x = true
    · exact Or.inr ⟨x, [], l, by rw [List.find?_cons_of_pos _ h], h, by simp, by simp⟩
    · rw [List.find?_cons_of_neg _ (by simpa using h)]
      rcases ih with ⟨hn, hall⟩ | ⟨a, l1, l2, hr, hpa, hleq, hl1⟩
      · refine Or.inl ⟨hn, ?_⟩
        intro y hy
        rcases List.mem_cons.mp hy with rfl | hy
        · simpa using h
        · exact hall y hy
      · refine Or.inr ⟨a, x :: l1, l2, hr, hpa, by rw [hleq, List.cons_append], ?_⟩
        intro y hy
        rcases List.mem_cons.mp hy with rfl | hy
        · simpa using h
        · exact hl1 y hy

/-- For a non-negative rational, Python `int()` truncation agrees with the
floor. -/
theorem pyInt_eq_floor (q : ℚ) (h : 0 ≤ q) : pyInt q = ⌊q⌋ := by
  rw [pyInt, Rat.floor_def]
  exact Int.tdiv_eq_ediv (Rat.num_nonneg.mpr h) (Int.ofNat_nonneg q.den)

/-- When the target schedule id resolves, `set_zone_schedule` produces its
payload in closed form. -/
theorem set_zone_schedule_ok (module : ModuleModel) (zone_id schedule_id : Int)
    (s : GlobalScheduleModel)
    (hfind : module.zones.global_schedules.elements.find? (fun x => x.id == schedule_id) =
      some s) :
    set_zone_schedule module zone_id schedule_id = Except.ok
      { scheduleName := s.name
        setInZones := (module.zones.elements.filter (fun z =>
            (z.mode.mode == ZoneMode.globalSchedule && z.mode.schedule_index == s.index)
              || z.zone.id == zone_id)).map (fun z => ⟨z.zone.id, z.mode.id⟩)
        schedule :=
          { id := s.id
            index := s.index
            p0Days := s.p0_days
            p0SetbackTemp := s.p0_setback_temp
            p0Intervals := s.p0_intervals.filter (fun i => i.start != 6100)
            p1Days := s.p1_days
            p1SetbackTemp := s.p1_setback_temp
            p1Intervals := s.p1_intervals.filter (fun i => i.start != 6100) } } := by
  unfold set_zone_schedule
  dsimp only
  rw [hfind]

/-- A non-forced `Module.schedules` read, in a state whose raw data was
fetched at the current instant and whose `_schedules` cache is either
still empty or already rebuilt from that data, serves the snapshot's
global schedules with no remote fetch and leaves `_schedules` populated. -/
theorem schedules_cached (st : ModuleState) (now : Nat) (remote : ModuleModel)
    (h1 : st._raw_data = some remote) (h2 : st._last_fetched = now)
    (h3 : st._schedules = [] ∨ st._schedules = remote.zones.global_schedules.elements) :
    Module.schedules st now remote false =
      Except.ok (remote.zones.global_schedules.elements,
        { st with _schedules := remote.zones.global_schedules.elements }, 0) := by
  obtain ⟨rd, lf, cv, zs, ss⟩ := st
  obtain rfl : rd = some remote := h1
  obtain rfl : lf = now := h2
  rcases h3 with h3 | h3
  · obtain rfl : ss = [] := h3
    simp [Module.schedules, Module._data]
  · obtain rfl : ss = remote.zones.global_schedules.elements := h3
    by_cases he : remote.zones.global_schedules.elements = []
    · simp [Module.schedules, Module._data, he]
    · simp [Module.schedules, Module._data, he]

/-- The `Module.zones` rebuild loop, run in a state whose raw data was
fetched at the current instant, performs no further remote fetch and
appends to `_zones` exactly the `zoneView` of each raw zone record. -/
theorem zonesLoop_ok (now : Nat) (remote : ModuleModel) (zl : List ZoneModel) :
    ∀ st : ModuleState, st._raw_data = some remote → st._last_fetched = now →
      (st._schedules = [] ∨ st._schedules = remote.zones.global_schedules.elements) →
      ∃ st2, Module.zonesLoop now remote st zl = Except.ok (st2, 0) ∧
        st2._zones = st._zones ++ zl.map (zoneView remote) ∧
        st2._raw_data = some remote ∧ st2._last_fetched = now ∧
        st2._cache_validity = st._cache_validity ∧
        (st2._schedules = [] ∨ st2._schedules = remote.zones.global_schedules.elements) := by
  induction zl with
  | nil =>
    intro st h1 h2 h3
    exact ⟨st, rfl, by simp, h1, h2, rfl, h3⟩
  | cons z rest ih =>
    intro st h1 h2 h3
    have hs := schedules_cached st now remote h1 h2 h3
    have hidx : Module.schedule_by_idx st now remote z.mode.schedule_index false =
        Except.ok (remote.zones.global_schedules.elements.find?
            (fun s => s.index == z.mode.schedule_index),
          { st with _schedules := remote.zones.global_schedules.elements }, 0) := by
      unfold Module.schedule_by_idx
      rw [hs]
    obtain ⟨st2, hloop, hz2, h12, h22, hcv2, h32⟩ :=
      ih { st with
             _schedules := remote.zones.global_schedules.elements
             _zones := st._zones ++ [zoneView remote z] } h1 h2 (Or.inr rfl)
    refine ⟨st2, ?_, ?_, h12, h22, hcv2, h32⟩
    · simp only [Module.zonesLoop]
      rw [hidx]
      dsimp only
      rw [show ({ st with _schedules := remote.zones.global_schedules.elements }
            : ModuleState)._zones ++
          [(⟨z, remote.zones.global_schedules.elements.find?
              (fun s => s.index == z.mode.schedule_index)⟩ : Zone)] =
          st._zones ++ [zoneView remote z] from rfl]
      rw [hloop]
    · rw [hz2]
      simp [List.append_assoc]

/-- A `Module.zones` call that actually rebuilds from a fetch (empty view
caches; forced, or validity window exceeded) performs exactly one remote
fetch and derives one `zoneView` per raw zone record of the snapshot. -/
theorem zones_build (st : ModuleState) (now : Nat) (remote : ModuleModel)
    (include_off refresh : Bool)
    (hz : st._zones = []) (hs : st._schedules = [])
    (hfetch : refresh = true ∨ st._cache_validity < now - st._last_fetched) :
    ∃ st2, Module.zones st now remote include_off refresh =
        Except.ok ((if include_off then remote.zones.elements.map (zoneView remote)
            else (remote.zones.elements.map (zoneView remote)).filter Zone.enabled), st2, 1) ∧
      st2._zones = remote.zones.elements.map (zoneView remote) ∧
      st2._raw_data = some remote ∧ st2._last_fetched = now ∧
      st2._cache_validity = st._cache_validity := by
  have hdata : Module._data st now remote refresh =
      Except.ok (remote, { st with _raw_data := some remote, _last_fetched := now }, 1) := by
    unfold Module._data
    rcases hfetch with rfl | hlt
    · simp
    · have : now - st._last_fetched > st._cache_validity := hlt
      simp [this]
  obtain ⟨st2, hloop, hz2, h12, h22, hcv2, h32⟩ :=
    zonesLoop_ok now remote remote.zones.elements
      { st with _raw_data := some remote, _last_fetched := now } rfl rfl (Or.inl hs)
  rw [show ({ st with _raw_data := some remote, _last_fetched := now } :
      ModuleState)._zones = st._zones from rfl, hz, List.nil_append] at hz2
  refine ⟨st2, ?_, hz2, h12, h22, hcv2⟩
  unfold Module.zones
  rw [hz]
  simp only [List.isEmpty_nil, Bool.true_or, if_true]
  rw [hdata]
  dsimp only
  rw [hloop]
  dsimp only
  rw [hz2]

/-! ## Claim theorems -/

/-- C1: for every module state, reassigning zone Z (by `zone_id`) to the
global schedule S resolved from `schedule_id`, the `setInZones` list of
the outbound payload contains exactly the zones whose mode is
`globalSchedule` and whose `schedule_index` equals S's index, together
with Z itself — whatever Z's previous mode or schedule — and omits no
zone currently on S. -/
theorem setInZones_membership_exact (module : ModuleModel) (zone_id schedule_id : Int)
    (s : GlobalScheduleModel) (p : SetZoneSchedulePayload)
    (hfind : module.zones.global_schedules.elements.find? (fun x => x.id == schedule_id) =
      some s)
    (hok : set_zone_schedule module zone_id schedule_id = Except.ok p) :
    (∀ z ∈ module.zones.elements,
      ((z.mode.mode = ZoneMode.globalSchedule ∧ z.mode.schedule_index = s.index) ∨
        z.zone.id = zone_id) →
      (⟨z.zone.id, z.mode.id⟩ : SetInZoneEntry) ∈ p.setInZones) ∧
    (∀ e ∈ p.setInZones, ∃ z, z ∈ module.zones.elements ∧
      e = (⟨z.zone.id, z.mode.id⟩ : SetInZoneEntry) ∧
      ((z.mode.mode = ZoneMode.globalSchedule ∧ z.mode.schedule_index = s.index) ∨
        z.zone.id = zone_id)) := by
  rw [set_zone_schedule_ok module zone_id schedule_id s hfind] at hok
  injection hok with h
  subst h
  constructor
  · intro z hz hcond
    dsimp only
    refine List.mem_map.mpr ⟨z, List.mem_filter.mpr ⟨hz, ?_⟩, rfl⟩
    simp only [Bool.or_eq_true, Bool.and_eq_true, beq_iff_eq]
    exact hcond
  · intro e he
    dsimp only at he
    obtain ⟨z, hzf, rfl⟩ := List.mem_map.mp he
    obtain ⟨hzmem, hpred⟩ := List.mem_filter.mp hzf
    refine ⟨z, hzmem, rfl, ?_⟩
    simpa only [Bool.or_eq_true, Bool.and_eq_true, beq_iff_eq] using hpred

/-- C1 witness: reassigning the constant-temperature zone `zLounge`
(id 11) to schedule 2948 keeps `zKitchen` (already on that schedule) and
adds `zLounge`. -/
theorem setInZones_membership_exact_witness :
    sampleModule.zones.global_schedules.elements.find? (fun x => x.id == (2948 : Int)) =
      some schedLivingSpaces ∧
    set_zone_schedule sampleModule 11 2948 = Except.ok samplePayload ∧
    ((∀ z ∈ sampleModule.zones.elements,
      ((z.mode.mode = ZoneMode.globalSchedule ∧
          z.mode.schedule_index = schedLivingSpaces.index) ∨ z.zone.id = 11) →
      (⟨z.zone.id, z.mode.id⟩ : SetInZoneEntry) ∈ samplePayload.setInZones) ∧
    (∀ e ∈ samplePayload.setInZones, ∃ z, z ∈ sampleModule.zones.elements ∧
      e = (⟨z.zone.id, z.mode.id⟩ : SetInZoneEntry) ∧
      ((z.mode.mode = ZoneMode.globalSchedule ∧
          z.mode.schedule_index = schedLivingSpaces.index) ∨ z.zone.id = 11))) :=
  ⟨rfl, rfl,
    setInZones_membership_exact sampleModule 11 2948 schedLivingSpaces samplePayload rfl rfl⟩

/-- C2: the payload built by `set_zone_schedule` contains no interval with
`start = 6100` in either period; all other intervals (in order), both
periods' day sets and setback temperatures, and the schedule's name, id
and index are passed through unchanged. -/
theorem schedule_payload_sentinel_free (module : ModuleModel) (zone_id schedule_id : Int)
    (s : GlobalScheduleModel) (p : SetZoneSchedulePayload)
    (hfind : module.zones.global_schedules.elements.find? (fun x => x.id == schedule_id) =
      some s)
    (hok : set_zone_schedule module zone_id schedule_id = Except.ok p) :
    (∀ i ∈ p.schedule.p0Intervals, i.start ≠ 6100) ∧
    (∀ i ∈ p.schedule.p1Intervals, i.start ≠ 6100) ∧
    p.schedule.p0Intervals = s.p0_intervals.filter (fun i => i.start != 6100) ∧
    p.schedule.p1Intervals = s.p1_intervals.filter (fun i => i.start != 6100) ∧
    (∀ i ∈ s.p0_intervals, i.start ≠ 6100 → i ∈ p.schedule.p0Intervals) ∧
    (∀ i ∈ s.p1_intervals, i.start ≠ 6100 → i ∈ p.schedule.p1Intervals) ∧
    p.scheduleName = s.name ∧ p.schedule.id = s.id ∧ p.schedule.index = s.index ∧
    p.schedule.p0Days = s.p0_days ∧ p.schedule.p0SetbackTemp = s.p0_setback_temp ∧
    p.schedule.p1Days = s.p1_days ∧ p.schedule.p1SetbackTemp = s.p1_setback_temp := by
  rw [set_zone_schedule_ok module zone_id schedule_id s hfind] at hok
  injection hok with h
  subst h
  refine ⟨?_, ?_, rfl, rfl, ?_, ?_, rfl, rfl, rfl, rfl, rfl, rfl, rfl⟩
  · intro i hi
    have := List.of_mem_filter hi
    simpa [bne_iff_ne] using this
  · intro i hi
    have := List.of_mem_filter hi
    simpa [bne_iff_ne] using this
  · intro i hi hne
    exact List.mem_filter.mpr ⟨hi, by simpa [bne_iff_ne] using hne⟩
  · intro i hi hne
    exact List.mem_filter.mpr ⟨hi, by simpa [bne_iff_ne] using hne⟩

/-- C2 witness: `schedLivingSpaces` carries the 6100 sentinel in both
periods, and the payload for reassigning zone 11 to it drops exactly those
entries. -/
theorem schedule_payload_sentinel_free_witness :
    sampleModule.zones.global_schedules.elements.find? (fun x => x.id == (2948 : Int)) =
      some schedLivingSpaces ∧
    set_zone_schedule sampleModule 11 2948 = Except.ok samplePayload ∧
    ((∀ i ∈ samplePayload.schedule.p0Intervals, i.start ≠ 6100) ∧
    (∀ i ∈ samplePayload.schedule.p1Intervals, i.start ≠ 6100) ∧
    samplePayload.schedule.p0Intervals =
      schedLivingSpaces.p0_intervals.filter (fun i => i.start != 6100) ∧
    samplePayload.schedule.p1Intervals =
      schedLivingSpaces.p1_intervals.filter (fun i => i.start != 6100) ∧
    (∀ i ∈ schedLivingSpaces.p0_intervals, i.start ≠ 6100 →
      i ∈ samplePayload.schedule.p0Intervals) ∧
    (∀ i ∈ schedLivingSpaces.p1_intervals, i.start ≠ 6100 →
      i ∈ samplePayload.schedule.p1Intervals) ∧
    samplePayload.scheduleName = schedLivingSpaces.name ∧
    samplePayload.schedule.id = schedLivingSpaces.id ∧
    samplePayload.schedule.index = schedLivingSpaces.index ∧
    samplePayload.schedule.p0Days = schedLivingSpaces.p0_days ∧
    samplePayload.schedule.p0SetbackTemp = schedLivingSpaces.p0_setback_temp ∧
    samplePayload.schedule.p1Days = schedLivingSpaces.p1_days ∧
    samplePayload.schedule.p1SetbackTemp = schedLivingSpaces.p1_setback_temp) :=
  ⟨rfl, rfl,
    schedule_payload_sentinel_free sampleModule 11 2948 schedLivingSpaces samplePayload rfl rfl⟩

/-- C5 refutation: with a `schedule_id` matching no global schedule, the
operation fails by raising `AssertionError` — an exception escaping
`set_zone_schedule` (the failed `assert isinstance(...)`) — not by
delivering an absent-value (`None`-like) result. -/
theorem set_zone_schedule_absent_id_raises :
    sampleModule.zones.global_schedules.elements.find? (fun x => x.id == (9999 : Int)) =
      none ∧
    set_zone_schedule sampleModule 11 9999 = Except.error PyError.assertionError :=
  ⟨rfl, rfl⟩

/-- C5 amended: when `schedule_id` matches no global schedule in the fresh
module state, `set_zone_schedule` raises `AssertionError`; the exception
propagates through `Zone.set_schedule`, so no payload is built (no remote
"set schedule" call is made) and the cache is not invalidated. -/
theorem set_zone_schedule_absent_id_assertion_error (module : ModuleModel)
    (zone_id schedule_id : Int) (z : Zone) (st : ModuleState)
    (hfind : module.zones.global_schedules.elements.find? (fun x => x.id == schedule_id) =
      none) :
    set_zone_schedule module zone_id schedule_id = Except.error PyError.assertionError ∧
    Zone.set_schedule z st module schedule_id = Except.error PyError.assertionError := by
  have herr : ∀ zid : Int,
      set_zone_schedule module zid schedule_id = Except.error PyError.assertionError := by
    intro zid
    unfold set_zone_schedule
    dsimp only
    rw [hfind]
  refine ⟨herr zone_id, ?_⟩
  unfold Zone.set_schedule
  rw [herr z.id]

/-- C5 witness: concrete absent schedule id 1234. -/
theorem set_zone_schedule_absent_id_assertion_error_witness :
    sampleModule.zones.global_schedules.elements.find? (fun x => x.id == (1234 : Int)) =
      none ∧
    (set_zone_schedule sampleModule 10 1234 = Except.error PyError.assertionError ∧
      Zone.set_schedule zvKitchen stCached sampleModule 1234 =
        Except.error PyError.assertionError) :=
  ⟨rfl, set_zone_schedule_absent_id_assertion_error sampleModule 10 1234 zvKitchen stCached rfl⟩

/-- C9: `Zone.set_temperature` encodes the (non-negative) temperature as
the tenths-of-degree integer `int(temperature * 10)` — multiplication by
ten followed by truncation toward zero (the floor, for non-negative
values, bracketed by the usual truncation inequalities, so 22.5 encodes to
225 and 18.04 to 180) — and then invalidates the module's cache. -/
theorem set_temperature_truncates_toward_zero (z : Zone) (st : ModuleState) (t : ℚ)
    (ht : 0 ≤ t) :
    (Zone.set_temperature z st t).1.mode.setTemperature = ⌊t * 10⌋ ∧
    (((Zone.set_temperature z st t).1.mode.setTemperature : ℚ) ≤ t * 10 ∧
      t * 10 < ((Zone.set_temperature z st t).1.mode.setTemperature : ℚ) + 1) ∧
    (Zone.set_temperature z st ((45 : ℚ) / 2)).1.mode.setTemperature = 225 ∧
    (Zone.set_temperature z st ((451 : ℚ) / 25)).1.mode.setTemperature = 180 ∧
    (Zone.set_temperature z st t).2 = Module.invalidate_cache st := by
  have hmul : (0 : ℚ) ≤ t * 10 := by positivity
  have he : (Zone.set_temperature z st t).1.mode.setTemperature = ⌊t * 10⌋ :=
    pyInt_eq_floor (t * 10) hmul
  refine ⟨he, ⟨?_, ?_⟩, ?_, ?_, rfl⟩
  · rw [he]
    exact_mod_cast Int.floor_le (t * 10)
  · rw [he]
    exact_mod_cast Int.lt_floor_add_one (t * 10)
  · show pyInt ((45 : ℚ) / 2 * 10) = 225
    rw [pyInt_eq_floor _ (by norm_num)]
    norm_num
  · show pyInt ((451 : ℚ) / 25 * 10) = 180
    rw [pyInt_eq_floor _ (by norm_num)]
    norm_num

/-- C9 witness: at 22.5 °C. -/
theorem set_temperature_truncates_toward_zero_witness :
    (0 : ℚ) ≤ (45 : ℚ) / 2 ∧
    ((Zone.set_temperature zvKitchen stCached ((45 : ℚ) / 2)).1.mode.setTemperature =
        ⌊(45 : ℚ) / 2 * 10⌋ ∧
      (((Zone.set_temperature zvKitchen stCached ((45 : ℚ) / 2)).1.mode.setTemperature : ℚ) ≤
          (45 : ℚ) / 2 * 10 ∧
        (45 : ℚ) / 2 * 10 <
          ((Zone.set_temperature zvKitchen stCached
              ((45 : ℚ) / 2)).1.mode.setTemperature : ℚ) + 1) ∧
      (Zone.set_temperature zvKitchen stCached ((45 : ℚ) / 2)).1.mode.setTemperature = 225 ∧
      (Zone.set_temperature zvKitchen stCached ((451 : ℚ) / 25)).1.mode.setTemperature = 180 ∧
      (Zone.set_temperature zvKitchen stCached ((45 : ℚ) / 2)).2 =
        Module.invalidate_cache stCached) :=
  ⟨by norm_num,
    set_temperature_truncates_toward_zero zvKitchen stCached ((45 : ℚ) / 2) (by norm_num)⟩

/-- C3 (code bug): on a fresh module with the default validity window 30
(documented as a count of seconds), a first non-forced read fetches, and a
second non-forced read only 1000 ms — 1 second, well within a 30-second
window — later fetches again (fetch count 1, not 0): `Module._data`
compares the elapsed milliseconds against the validity value itself. -/
theorem second_read_within_window_refetches :
    Module._data (Module.init 30) 1700000000000 sampleModule false =
      Except.ok (sampleModule,
        { _raw_data := some sampleModule, _last_fetched := 1700000000000,
          _cache_validity := 30, _zones := [], _schedules := [] }, 1) ∧
    Module._data
        { _raw_data := some sampleModule, _last_fetched := 1700000000000,
          _cache_validity := 30, _zones := [], _schedules := [] }
        1700000001000 sampleModule false =
      Except.ok (sampleModule,
        { _raw_data := some sampleModule, _last_fetched := 1700000001000,
          _cache_validity := 30, _zones := [], _schedules := [] }, 1) :=
  ⟨rfl, rfl⟩

/-- C10: once the derived-view caches are non-empty, every further
non-forced read of zones or schedules returns the cached views unchanged,
with no remote fetch and no state change, for every current time (the
timestamp is not consulted at all). -/
theorem nonempty_view_caches_short_circuit (st : ModuleState) (now : Nat)
    (remote : ModuleModel) (include_off : Bool)
    (hz : st._zones ≠ []) (hs : st._schedules ≠ []) :
    Module.zones st now remote include_off false =
      Except.ok ((if include_off then st._zones else st._zones.filter Zone.enabled), st, 0) ∧
    Module.schedules st now remote false = Except.ok (st._schedules, st, 0) := by
  constructor
  · unfold Module.zones
    have h : st._zones.isEmpty = false := by simpa using hz
    simp [h]
  · unfold Module.schedules
    have h : st._schedules.isEmpty = false := by simpa using hs
    simp [h]

/-- C10 witness: a populated state served identically at an arbitrary
late clock value. -/
theorem nonempty_view_caches_short_circuit_witness :
    stCached._zones ≠ [] ∧ stCached._schedules ≠ [] ∧
    (Module.zones stCached 999999999999 sampleModule true false =
        Except.ok ((if true then stCached._zones else stCached._zones.filter Zone.enabled),
          stCached, 0) ∧
      Module.schedules stCached 999999999999 sampleModule false =
        Except.ok (stCached._schedules, stCached, 0)) :=
  ⟨by decide, by decide,
    nonempty_view_caches_short_circuit stCached 999999999999 sampleModule true
      (by decide) (by decide)⟩


/-- C4: after `invalidate_cache` — which is exactly what both mutations
perform on success — the next non-forced read of module data, zones or
schedules performs exactly one remote fetch, however recently the
previous fetch happened (the timestamp was reset to 0, so only the clock
value itself must exceed the small validity number). -/
theorem invalidate_cache_forces_single_refetch (st : ModuleState) (now : Nat)
    (remote : ModuleModel) (include_off : Bool) (z : Zone) (t : ℚ)
    (hnow : st._cache_validity < now) :
    Module._data (Module.invalidate_cache st) now remote false =
      Except.ok (remote,
        { st with
            _raw_data := some remote
            _last_fetched := now
            _zones := []
            _schedules := [] }, 1) ∧
    (∃ res st2, Module.zones (Module.invalidate_cache st) now remote include_off false =
      Except.ok (res, st2, 1)) ∧
    (∃ st2, Module.schedules (Module.invalidate_cache st) now remote false =
      Except.ok (remote.zones.global_schedules.elements, st2, 1)) ∧
    (Zone.set_temperature z st t).2 = Module.invalidate_cache st ∧
    (∀ sid rem p st2, Zone.set_schedule z st rem sid = Except.ok (p, st2) →
      st2 = Module.invalidate_cache st) := by
  have hdata : Module._data (Module.invalidate_cache st) now remote false =
      Except.ok (remote,
        { st with
            _raw_data := some remote
            _last_fetched := now
            _zones := []
            _schedules := [] }, 1) := by
    unfold Module.invalidate_cache Module._data
    simp [hnow]
  refine ⟨hdata, ?_, ?_, rfl, ?_⟩
  · obtain ⟨st2, hz2, _, _, _, _⟩ :=
      zones_build (Module.invalidate_cache st) now remote include_off false rfl rfl
        (Or.inr (by simpa using hnow))
    exact ⟨_, st2, hz2⟩
  · refine ⟨{ _raw_data := some remote
              _last_fetched := now
              _cache_validity := st._cache_validity
              _zones := []
              _schedules := remote.zones.global_schedules.elements }, ?_⟩
    unfold Module.schedules
    rw [show (Module.invalidate_cache st)._schedules = [] from rfl]
    simp only [List.isEmpty_nil, Bool.true_or, if_true]
    rw [hdata]
  · intro sid rem p st2 h
    unfold Zone.set_schedule at h
    rcases hcase : set_zone_schedule rem z.id sid with e | q
    · rw [hcase] at h
      cases h
    · rw [hcase] at h
      injection h with h2
      injection h2 with _ h3
      exact h3.symm

/-- C4 witness: invalidating a populated cache and reading again
immediately (clock 1700000000000) fetches exactly once. -/
theorem invalidate_cache_forces_single_refetch_witness :
    stCached._cache_validity < 1700000000000 ∧
    (Module._data (Module.invalidate_cache stCached) 1700000000000 sampleModule false =
      Except.ok (sampleModule,
        { stCached with
            _raw_data := some sampleModule
            _last_fetched := 1700000000000
            _zones := []
            _schedules := [] }, 1) ∧
    (∃ res st2, Module.zones (Module.invalidate_cache stCached) 1700000000000 sampleModule
        true false = Except.ok (res, st2, 1)) ∧
    (∃ st2, Module.schedules (Module.invalidate_cache stCached) 1700000000000 sampleModule
        false = Except.ok (sampleModule.zones.global_schedules.elements, st2, 1)) ∧
    (Zone.set_temperature zvKitchen stCached ((45 : ℚ) / 2)).2 =
      Module.invalidate_cache stCached ∧
    (∀ sid rem p st2, Zone.set_schedule zvKitchen stCached rem sid = Except.ok (p, st2) →
      st2 = Module.invalidate_cache stCached)) :=
  ⟨by decide,
    invalidate_cache_forces_single_refetch stCached 1700000000000 sampleModule true
      zvKitchen ((45 : ℚ) / 2) (by decide)⟩

/-- C6 refutation: in a snapshot whose only zone is in `localSchedule`
mode with `schedule_index` 1, the derived zone view's schedule is the
global schedule at position index 1 — not `None`, as claimed for every
mode other than `globalSchedule`. -/
theorem zone_view_schedule_local_mode_not_none :
    zAttic.mode.mode = ZoneMode.localSchedule ∧
    (Module.zones (Module.init 30) 1700000000000 localModeModule true true).map
        (fun r => r.1.map Zone.schedule) = Except.ok [some schedBedrooms] :=
  ⟨rfl, rfl⟩

/-- C6 amended: each zone view's schedule is resolved by position index
(`byIndex` on `zone.mode.schedule_index`, never by id); it is `None` when
the zone's mode is `constantTemp` (or when no schedule carries the index),
and otherwise — for `globalSchedule` but equally for `localSchedule` and
`timeLimit` — it is the first global schedule whose index matches. -/
theorem zone_view_schedule_byIndex (st : ModuleState) (now : Nat) (remote : ModuleModel)
    (refresh : Bool) (hz : st._zones = []) (hs : st._schedules = [])
    (hfetch : refresh = true ∨ st._cache_validity < now - st._last_fetched) :
    ∃ st2, Module.zones st now remote true refresh =
        Except.ok (remote.zones.elements.map (zoneView remote), st2, 1) ∧
      ∀ z ∈ remote.zones.elements,
        Zone.schedule (zoneView remote z) =
          if z.mode.mode = ZoneMode.constantTemp then none
          else remote.zones.global_schedules.elements.find?
            (fun s => s.index == z.mode.schedule_index) := by
  obtain ⟨st2, hzs, _, _, _⟩ := zones_build st now remote true refresh hz hs hfetch
  refine ⟨st2, by simpa using hzs, ?_⟩
  intro z _
  by_cases h : z.mode.mode = ZoneMode.constantTemp
  · simp [Zone.schedule, Zone.mode, zoneView, h]
  · simp [Zone.schedule, Zone.mode, zoneView, h]

/-- C6 amended witness: fresh build over `sampleModule`. -/
theorem zone_view_schedule_byIndex_witness :
    (Module.init 30)._zones = [] ∧ (Module.init 30)._schedules = [] ∧
    ((true : Bool) = true ∨ (Module.init 30)._cache_validity <
      1700000000000 - (Module.init 30)._last_fetched) ∧
    (∃ st2, Module.zones (Module.init 30) 1700000000000 sampleModule true true =
        Except.ok (sampleModule.zones.elements.map (zoneView sampleModule), st2, 1) ∧
      ∀ z ∈ sampleModule.zones.elements,
        Zone.schedule (zoneView sampleModule z) =
          if z.mode.mode = ZoneMode.constantTemp then none
          else sampleModule.zones.global_schedules.elements.find?
            (fun s => s.index == z.mode.schedule_index)) :=
  ⟨rfl, rfl, Or.inl rfl,
    zone_view_schedule_byIndex (Module.init 30) 1700000000000 sampleModule true rfl rfl
      (Or.inl rfl)⟩

/-- C7: every lookup (zone by id, zone by name, schedule by id, by name,
by index) succeeds with an `Option` result: the not-found value `none`
when no element matches — never an error — and the first-encountered
match, in the sequence's order, when one or more elements match. -/
theorem lookups_first_match_or_none (st : ModuleState) (now : Nat) (remote : ModuleModel)
    (refresh : Bool) (zone_id : Int) (zone_name : String)
    (schedule_id schedule_idx : Int) (schedule_name : String)
    (zs : List Zone) (st1 : ModuleState) (n : Nat)
    (ss : List GlobalScheduleModel) (st2 : ModuleState) (m : Nat)
    (hzs : Module.zones st now remote true refresh = Except.ok (zs, st1, n))
    (hss : Module.schedules st now remote refresh = Except.ok (ss, st2, m)) :
    (∃ r, Module.zone st now remote zone_id refresh = Except.ok (r, st1, n) ∧
      FirstMatch (fun z => z.id == zone_id) zs r) ∧
    (∃ r, Module.zone_by_name st now remote zone_name refresh = Except.ok (r, st1, n) ∧
      FirstMatch (fun z => z.name == zone_name) zs r) ∧
    (∃ r, Module.schedule st now remote schedule_id refresh = Except.ok (r, st2, m) ∧
      FirstMatch (fun s => s.id == schedule_id) ss r) ∧
    (∃ r, Module.schedule_by_idx st now remote schedule_idx refresh =
        Except.ok (r, st2, m) ∧
      FirstMatch (fun s => s.index == schedule_idx) ss r) ∧
    (∃ r, Module.schedule_by_name st now remote schedule_name refresh =
        Except.ok (r, st2, m) ∧
      FirstMatch (fun s => s.name == schedule_name) ss r) := by
  refine ⟨⟨_, ?_, firstMatch_find _ zs⟩, ⟨_, ?_, firstMatch_find _ zs⟩,
    ⟨_, ?_, firstMatch_find _ ss⟩, ⟨_, ?_, firstMatch_find _ ss⟩,
    ⟨_, ?_, firstMatch_find _ ss⟩⟩
  · unfold Module.zone
    rw [hzs]
  · unfold Module.zone_by_name
    rw [hzs]
  · unfold Module.schedule
    rw [hss]
  · unfold Module.schedule_by_idx
    rw [hss]
  · unfold Module.schedule_by_name
    rw [hss]

/-- C7 witness: lookups over the populated cache state, exercising both
present keys (first match) and the general characterization. -/
theorem lookups_first_match_or_none_witness :
    Module.zones stCached 5 sampleModule true false =
      Except.ok ([zvKitchen, zvLounge, zvAttic], stCached, 0) ∧
    Module.schedules stCached 5 sampleModule false =
      Except.ok ([schedLivingSpaces, schedBedrooms], stCached, 0) ∧
    ((∃ r, Module.zone stCached 5 sampleModule 10 false = Except.ok (r, stCached, 0) ∧
      FirstMatch (fun z => z.id == (10 : Int)) [zvKitchen, zvLounge, zvAttic] r) ∧
    (∃ r, Module.zone_by_name stCached 5 sampleModule "Kitchen" false =
        Except.ok (r, stCached, 0) ∧
      FirstMatch (fun z => z.name == "Kitchen") [zvKitchen, zvLounge, zvAttic] r) ∧
    (∃ r, Module.schedule stCached 5 sampleModule 2948 false = Except.ok (r, stCached, 0) ∧
      FirstMatch (fun s => s.id == (2948 : Int)) [schedLivingSpaces, schedBedrooms] r) ∧
    (∃ r, Module.schedule_by_idx stCached 5 sampleModule 1 false =
        Except.ok (r, stCached, 0) ∧
      FirstMatch (fun s => s.index == (1 : Int)) [schedLivingSpaces, schedBedrooms] r) ∧
    (∃ r, Module.schedule_by_name stCached 5 sampleModule "Bedrooms" false =
        Except.ok (r, stCached, 0) ∧
      FirstMatch (fun s => s.name == "Bedrooms") [schedLivingSpaces, schedBedrooms] r)) :=
  ⟨rfl, rfl,
    lookups_first_match_or_none stCached 5 sampleModule false 10 "Kitchen" 2948 1 "Bedrooms"
      [zvKitchen, zvLounge, zvAttic] stCached 0 [schedLivingSpaces, schedBedrooms] stCached 0
      rfl rfl⟩

/-- C8: a freshly built `zones(include_off := true)` list has exactly one
view per raw zone record of the snapshot; `zones(include_off := false)`
returns exactly the views whose zone state is not `zoneOff`; and every
zone record — disabled ones included — remains resolvable by id and by
name. -/
theorem zones_filter_enabled_exact (st : ModuleState) (now : Nat) (remote : ModuleModel)
    (refresh : Bool) (hz : st._zones = []) (hs : st._schedules = [])
    (hfetch : refresh = true ∨ st._cache_validity < now - st._last_fetched) :
    ∃ zsAll st2 st3,
      Module.zones st now remote true refresh = Except.ok (zsAll, st2, 1) ∧
      zsAll.length = remote.zones.elements.length ∧
      Module.zones st now remote false refresh =
        Except.ok (zsAll.filter Zone.enabled, st3, 1) ∧
      (∀ z, z ∈ zsAll.filter Zone.enabled ↔
        z ∈ zsAll ∧ z._raw_data.zone.zone_state ≠ ZoneState.zoneOff) ∧
      (∀ ze ∈ remote.zones.elements, ∃ r st4 k,
        Module.zone st now remote ze.zone.id refresh = Except.ok (some r, st4, k) ∧
        r.id = ze.zone.id) ∧
      (∀ ze ∈ remote.zones.elements, ∃ r st4 k,
        Module.zone_by_name st now remote ze.description.name refresh =
          Except.ok (some r, st4, k) ∧ r.name = ze.description.name) := by
  obtain ⟨st2, hz2, _, _, _, _⟩ := zones_build st now remote true refresh hz hs hfetch
  obtain ⟨st3, hz3, _, _, _, _⟩ := zones_build st now remote false refresh hz hs hfetch
  have hz2' : Module.zones st now remote true refresh =
      Except.ok (remote.zones.elements.map (zoneView remote), st2, 1) := by
    simpa using hz2
  have hz3' : Module.zones st now remote false refresh =
      Except.ok ((remote.zones.elements.map (zoneView remote)).filter Zone.enabled,
        st3, 1) := by
    simpa using hz3
  refine ⟨remote.zones.elements.map (zoneView remote), st2, st3, hz2', by simp, hz3',
    ?_, ?_, ?_⟩
  · intro z
    constructor
    · intro hmem
      have h1 := List.mem_filter.mp hmem
      exact ⟨h1.1, by simpa [Zone.enabled, bne_iff_ne] using h1.2⟩
    · rintro ⟨h1, h2⟩
      exact List.mem_filter.mpr ⟨h1, by simpa [Zone.enabled, bne_iff_ne] using h2⟩
  · intro ze hze
    have hex : ∃ x ∈ remote.zones.elements.map (zoneView remote),
        (fun z => z.id == ze.zone.id) x = true :=
      ⟨zoneView remote ze, List.mem_map_of_mem _ hze, by simp [Zone.id, zoneView]⟩
    rcases ho : (remote.zones.elements.map (zoneView remote)).find?
        (fun z => z.id == ze.zone.id) with _ | r
    · exfalso
      obtain ⟨x, hx, hpx⟩ := hex
      have := List.find?_eq_none.mp ho x hx
      simp [hpx] at this
    · refine ⟨r, st2, 1, ?_, ?_⟩
      · unfold Module.zone
        rw [hz2']
        dsimp only
        rw [ho]
      · have := List.find?_some ho
        simpa using this
  · intro ze hze
    have hex : ∃ x ∈ remote.zones.elements.map (zoneView remote),
        (fun z => z.name == ze.description.name) x = true :=
      ⟨zoneView remote ze, List.mem_map_of_mem _ hze, by simp [Zone.name, zoneView]⟩
    rcases ho : (remote.zones.elements.map (zoneView remote)).find?
        (fun z => z.name == ze.description.name) with _ | r
    · exfalso
      obtain ⟨x, hx, hpx⟩ := hex
      have := List.find?_eq_none.mp ho x hx
      simp [hpx] at this
    · refine ⟨r, st2, 1, ?_, ?_⟩
      · unfold Module.zone_by_name
        rw [hz2']
        dsimp only
        rw [ho]
      · have := List.find?_some ho
        simpa using this

/-- C8 witness: fresh forced build over `sampleModule` (three zone
records, one of them `zoneOff`). -/
theorem zones_filter_enabled_exact_witness :
    (Module.init 30)._zones = [] ∧ (Module.init 30)._schedules = [] ∧
    ((true : Bool) = true ∨ (Module.init 30)._cache_validity <
      1700000000000 - (Module.init 30)._last_fetched) ∧
    (∃ zsAll st2 st3,
      Module.zones (Module.init 30) 1700000000000 sampleModule true true =
        Except.ok (zsAll, st2, 1) ∧
      zsAll.length = sampleModule.zones.elements.length ∧
      Module.zones (Module.init 30) 1700000000000 sampleModule false true =
        Except.ok (zsAll.filter Zone.enabled, st3, 1) ∧
      (∀ z, z ∈ zsAll.filter Zone.enabled ↔
        z ∈ zsAll ∧ z._raw_data.zone.zone_state ≠ ZoneState.zoneOff) ∧
      (∀ ze ∈ sampleModule.zones.elements, ∃ r st4 k,
        Module.zone (Module.init 30) 1700000000000 sampleModule ze.zone.id true =
          Except.ok (some r, st4, k) ∧ r.id = ze.zone.id) ∧
      (∀ ze ∈ sampleModule.zones.elements, ∃ r st4 k,
        Module.zone_by_name (Module.init 30) 1700000000000 sampleModule
            ze.description.name true =
          Except.ok (some r, st4, k) ∧ r.name = ze.description.name)) :=
  ⟨rfl, rfl, Or.inl rfl,
    zones_filter_enabled_exact (Module.init 30) 1700000000000 sampleModule true rfl rfl
      (Or.inl rfl)⟩
